import Mathlib

/-!
Verification of the connectivity and geofence event pipeline of the
ESP32 LoRaWAN geofencing firmware.

The Lean definitions below are a shallow embedding of the firmware source:

* `src/src/lorawan_manager.cpp` / `lorawan_manager.h` — the `LoRaWANManager`
  class (join state machine, duty-cycle gating, transmit statistics, session
  persistence) and the helper functions `hexStringToBytes` and
  `encodeGPSData`.
* `src/include/project_config.h` — the configuration constants.

Machine integers are modelled as `Nat` reduced modulo `2^32` (for `uint32_t`)
or `2^8` (for `uint8_t`); the monotonic millisecond clock `millis()` and the
results of the RadioLib calls (`beginOTAA`, `sendReceive`, `isJoined`) are
passed in as explicit parameters, since they are external inputs to the
manager.  Each operation returns an outcome record carrying its boolean
return value, the side effects that are observable at the capability or
storage boundary (payload forwarded to `sendReceive`, session record written
by `saveSession`, `ESP.restart()` invocation), and the updated manager state.
-/

namespace Firmware

/-! ### Configuration constants (`include/project_config.h`) -/

def TX_INTERVAL_MS : Nat := 60000

def JOIN_RETRY_DELAY : Nat := 30000

def MAX_JOIN_ATTEMPTS : Nat := 10

def LORAWAN_PORT : Nat := 1

def MSG_TYPE_GPS_DATA : Nat := 0x01

def MSG_TYPE_GEOFENCE_EVENT : Nat := 0x02

def STORAGE_NAMESPACE : String := "geofence"

def GEOFENCE_HYSTERESIS : Rat := 2

def DEFAULT_GEOFENCE_RADIUS : Rat := 100

/-- RadioLib success status code. -/
def RADIOLIB_ERR_NONE : Int := 0

/-- RadioLib status code for a frame exceeding the maximum supported length. -/
def RADIOLIB_ERR_PACKET_TOO_LONG : Int := -4

/-! ### Machine arithmetic -/

/-- The modulus of the firmware's `uint32_t` arithmetic. -/
def U32 : Nat := 4294967296

/-- Reduction into `uint32_t` range. -/
def u32 (n : Nat) : Nat := n % U32

/-- Reduction into `uint8_t` range. -/
def u8 (n : Nat) : Nat := n % 256

/-- Wraparound-safe unsigned 32-bit subtraction `a - b`, as performed by the
firmware on `uint32_t` values such as `millis() - lastTxTime`. -/
def usub32 (a b : Nat) : Nat := (u32 a + U32 - u32 b) % U32

/-- The `uint32_t` value of a two's-complement `int32_t`, as produced by the
C casts and shifts in the payload codec. -/
def toUInt32 (x : Int) : Nat := (x % 4294967296).toNat

/-- The `uint16_t` value of a two's-complement `int16_t`. -/
def toUInt16 (x : Int) : Nat := (x % 65536).toNat

/-! ### Manager state (`LoRaWANManager` data members) -/

/-- The mutable data members of `LoRaWANManager`
(`src/src/lorawan_manager.h`, lines 50–61).  The OTAA credential fields are
omitted: they are parsed once at startup and never influence the state
machine modelled here. -/
structure ManagerState where
  isJoined : Bool
  isInitialized : Bool
  lastTxTime : Nat
  lastJoinAttempt : Nat
  joinAttempts : Nat
  txCounter : Nat
  totalTransmissions : Nat
  successfulTransmissions : Nat
  failedTransmissions : Nat
  totalJoinAttempts : Nat
deriving DecidableEq, Repr

/-- The state established by the `LoRaWANManager` constructor
(`lorawan_manager.cpp`, lines 8–21): everything zero / false. -/
def initialState : ManagerState :=
  { isJoined := false
    isInitialized := false
    lastTxTime := 0
    lastJoinAttempt := 0
    joinAttempts := 0
    txCounter := 0
    totalTransmissions := 0
    successfulTransmissions := 0
    failedTransmissions := 0
    totalJoinAttempts := 0 }

/-! ### Session persistence (`saveSession` / `loadSession`) -/

/-- The key-value record written by `saveSession` into the `"geofence"`
namespace (`lorawan_manager.cpp`, lines 307–319). -/
structure SessionRecord where
  joined : Bool
  tx_counter : Nat
  total_tx : Nat
  success_tx : Nat
  failed_tx : Nat
deriving DecidableEq, Repr

/-- The record `saveSession` persists when invoked on state `s`. -/
def sessionSnapshot (s : ManagerState) : SessionRecord :=
  { joined := s.isJoined
    tx_counter := s.txCounter
    total_tx := s.totalTransmissions
    success_tx := s.successfulTransmissions
    failed_tx := s.failedTransmissions }

/-- Effect of `loadSession` (`lorawan_manager.cpp`, lines 321–338) when the
preferences namespace opens successfully and holds `stored`; missing keys
default to `false` / `0`, which is the snapshot of `initialState`. -/
def loadSessionApply (s : ManagerState) (stored : SessionRecord) : ManagerState :=
  { s with
    isJoined := stored.joined
    txCounter := stored.tx_counter
    totalTransmissions := stored.total_tx
    successfulTransmissions := stored.success_tx
    failedTransmissions := stored.failed_tx }

/-- `LoRaWANManager::begin` (`lorawan_manager.cpp`, lines 32–53):
initialize the radio, parse credentials, load any previous session, then set
`isInitialized`.  `radioOk` and `credsOk` stand for the results of
`initializeRadio()` and `parseCredentials()`; `stored` is the persisted
session record, `none` when the preferences namespace does not open (fresh
device). -/
def beginManager (s : ManagerState) (radioOk credsOk : Bool)
    (stored : Option SessionRecord) : Bool × ManagerState :=
  if !radioOk then (false, s)
  else if !credsOk then (false, s)
  else
    let s1 :=
      match stored with
      | some rec => loadSessionApply s rec
      | none => loadSessionApply s (sessionSnapshot initialState)
    (true, { s1 with isInitialized := true })

/-! ### Duty-cycle gate (`canTransmit`) -/

/-- `LoRaWANManager::canTransmit` (`lorawan_manager.cpp`, lines 262–274).
`now` is the value of `millis()` at the call. -/
def canTransmit (s : ManagerState) (now : Nat) : Bool :=
  if !s.isInitialized || !s.isJoined then false
  else if usub32 now s.lastTxTime < TX_INTERVAL_MS then false
  else true

/-! ### OTAA join (`startJoin` / `checkJoinStatus`) -/

/-- Outcome of a `startJoin` call: return value, whether `beginOTAA` was
invoked on the radio capability, whether `ESP.restart()` was invoked, and
the updated state. -/
structure StartJoinOutcome where
  ret : Bool
  forwarded : Bool
  restart : Bool
  state : ManagerState
deriving DecidableEq, Repr

/-- `LoRaWANManager::startJoin` (`lorawan_manager.cpp`, lines 123–162).
`now` is `millis()` at the call; `beginOTAAResult` is the status code the
radio capability returns from `node->beginOTAA` if it is reached. -/
def startJoin (s : ManagerState) (now : Nat) (beginOTAAResult : Int) :
    StartJoinOutcome :=
  if !s.isInitialized then
    { ret := false, forwarded := false, restart := false, state := s }
  else if s.isJoined then
    { ret := true, forwarded := false, restart := false, state := s }
  else if usub32 now s.lastJoinAttempt < JOIN_RETRY_DELAY then
    { ret := false, forwarded := false, restart := false, state := s }
  else if MAX_JOIN_ATTEMPTS ≤ s.joinAttempts then
    { ret := false, forwarded := false, restart := true, state := s }
  else if beginOTAAResult = RADIOLIB_ERR_NONE then
    { ret := true, forwarded := true, restart := false,
      state :=
        { s with
          lastJoinAttempt := u32 now
          joinAttempts := u8 (s.joinAttempts + 1)
          totalJoinAttempts := u32 (s.totalJoinAttempts + 1) } }
  else
    { ret := false, forwarded := true, restart := false, state := s }

/-- Outcome of a `checkJoinStatus` call: return value, session record
persisted by `saveSession` (if any), and the updated state. -/
structure JoinCheckOutcome where
  ret : Bool
  saved : Option SessionRecord
  state : ManagerState
deriving DecidableEq, Repr

/-- `LoRaWANManager::checkJoinStatus` (`lorawan_manager.cpp`, lines
164–185).  `nodeIsJoined` is the value the radio capability returns from
`node->isJoined()`. -/
def checkJoinStatus (s : ManagerState) (nodeIsJoined : Bool) :
    JoinCheckOutcome :=
  if !s.isInitialized || s.isJoined then
    { ret := s.isJoined, saved := none, state := s }
  else if nodeIsJoined then
    { ret := true
      saved := some (sessionSnapshot { s with isJoined := true, joinAttempts := 0 })
      state := { s with isJoined := true, joinAttempts := 0 } }
  else
    { ret := false, saved := none, state := s }

/-! ### Transmission (`sendCustomPayload`) -/

/-- Outcome of a `sendCustomPayload` call: return value, the payload and
port handed to the radio capability's `sendReceive` (if reached), the
session record persisted by `saveSession` (if any), and the updated
state. -/
structure SendOutcome where
  ret : Bool
  sent : Option (List Nat × Nat)
  saved : Option SessionRecord
  state : ManagerState
deriving DecidableEq, Repr

/-- `LoRaWANManager::sendCustomPayload` (`lorawan_manager.cpp`, lines
227–256).  `nowStart` is `millis()` at the guard, `nowEnd` is `millis()`
after a successful `sendReceive` (the code calls `millis()` twice);
`sendResult` is the status code `node->sendReceive` returns if it is
reached. -/
def sendCustomPayload (s : ManagerState) (payload : List Nat) (port : Nat)
    (nowStart nowEnd : Nat) (sendResult : Int) : SendOutcome :=
  if !canTransmit s nowStart then
    { ret := false, sent := none, saved := none, state := s }
  else if sendResult = RADIOLIB_ERR_NONE then
    let s2 : ManagerState :=
      { s with
        totalTransmissions := u32 (s.totalTransmissions + 1)
        successfulTransmissions := u32 (s.successfulTransmissions + 1)
        lastTxTime := u32 nowEnd
        txCounter := u32 (s.txCounter + 1) }
    { ret := true, sent := some (payload, port),
      saved := some (sessionSnapshot s2), state := s2 }
  else
    { ret := false, sent := some (payload, port), saved := none,
      state :=
        { s with
          totalTransmissions := u32 (s.totalTransmissions + 1)
          failedTransmissions := u32 (s.failedTransmissions + 1) } }

/-! ### Payload codec (`encodeGPSData`) -/

/-- The `GPSData` record (`lorawan_manager.h`, lines 12–18): `latitude` and
`longitude` are `int32_t` (degrees × 1e6), `altitude` is `int16_t` meters,
`satellites` and `hdop` are `uint8_t`. -/
structure GPSData where
  latitude : Int
  longitude : Int
  altitude : Int
  satellites : Nat
  hdop : Nat
deriving DecidableEq, Repr

/-- `encodeGPSData` (`lorawan_manager.cpp`, lines 380–404): one-byte tag,
big-endian `int32` latitude, big-endian `int32` longitude, big-endian
`int16` altitude, satellites, hdop; returns 13 bytes. -/
def encodeGPSData (gps : GPSData) : List Nat :=
  [MSG_TYPE_GPS_DATA,
   toUInt32 gps.latitude / 16777216 % 256,
   toUInt32 gps.latitude / 65536 % 256,
   toUInt32 gps.latitude / 256 % 256,
   toUInt32 gps.latitude % 256,
   toUInt32 gps.longitude / 16777216 % 256,
   toUInt32 gps.longitude / 65536 % 256,
   toUInt32 gps.longitude / 256 % 256,
   toUInt32 gps.longitude % 256,
   toUInt16 gps.altitude / 256 % 256,
   toUInt16 gps.altitude % 256,
   u8 gps.satellites,
   u8 gps.hdop]

/-! ### Hex credential parsing (`hexStringToBytes`) -/

/-- C `isxdigit` on an ASCII code: decimal digit, or upper- or lower-case
hexadecimal letter. -/
def isHexDigitCode (c : Nat) : Bool :=
  (48 ≤ c && c ≤ 57) || (65 ≤ c && c ≤ 70) || (97 ≤ c && c ≤ 102)

/-- The digit-value expression of `hexStringToBytes`
(`lorawan_manager.cpp`, lines 358–359): `(c >= 'A') ? (c - 'A' + 10) :
(c - '0')`. -/
def hexDigitValue (c : Nat) : Nat :=
  if 65 ≤ c then c - 65 + 10 else c - 48

/-- One output byte of `hexStringToBytes`: the high digit value shifted
left by 4 (truncated into the `uint8_t` slot), then or-ed with the low
digit value and truncated again. -/
def hexPairByte (h l : Nat) : Nat :=
  u8 (u8 (hexDigitValue h * 16) ||| hexDigitValue l)

/-- The conversion loop of `hexStringToBytes` over an even-length prefix of
character codes: fails (returns `none`) at the first non-hex digit. -/
def hexPairsToBytes : List Nat → Option (List Nat)
  | [] => some []
  | h :: l :: rest =>
    if isHexDigitCode h && isHexDigitCode l then
      (hexPairsToBytes rest).map (fun bs => hexPairByte h l :: bs)
    else none
  | [_] => none

/-- `hexStringToBytes` (`lorawan_manager.cpp`, lines 344–363), with the
NUL-terminated input string given as its list of ASCII codes.  `some bs`
models a `true` return with output bytes `bs`; `none` models `false`. -/
def hexStringToBytes (hexStr : List Nat) (maxBytes : Nat) : Option (List Nat) :=
  if hexStr.length = maxBytes * 2 then hexPairsToBytes hexStr else none

/-! ### Geofence hysteresis engine -/

/-- Event kind values of `GeofenceEvent.event_type`
(`lorawan_manager.h`, line 22): `0 = exit`, `1 = enter`. -/
def EVENT_EXIT : Nat := 0

def EVENT_ENTER : Nat := 1

/-- Modelled from the spec: the per-zone, per-sample hysteresis rule of the
Geofence Engine (spec §4.1).  The geofence engine source
(`geofence_manager.h` / `.cpp`) is not under `src/`; only its caller
(`main.cpp`) is.  Spec rule: a state flip outside→inside is committed only
if `distance ≤ radius − margin`; a flip inside→outside is committed only if
`distance > radius + margin`; while the distance lies within the margin
band the last committed state is retained.  Returns the new committed state
and the event committed this sample (if any). -/
def hystStep (radius margin : Rat) (inside : Bool) (d : Rat) : Bool × Option Nat :=
  if inside then
    if radius + margin < d then (false, some EVENT_EXIT) else (true, none)
  else
    if d ≤ radius - margin then (true, some EVENT_ENTER) else (false, none)

/-- Modelled from the spec: the events committed by running `hystStep` over
a sequence of measured distances, starting from committed state
`inside`. -/
def hystEvents (radius margin : Rat) (inside : Bool) : List Rat → List (Option Nat)
  | [] => []
  | d :: ds =>
    (hystStep radius margin inside d).2 ::
      hystEvents radius margin (hystStep radius margin inside d).1 ds

/-! ### Manager operation traces -/

/-- One manager operation together with its external inputs (clock values
and radio capability results). -/
inductive Op where
  | startJoinOp (now : Nat) (beginOTAAResult : Int)
  | checkJoinOp (nodeIsJoined : Bool)
  | sendOp (payload : List Nat) (port : Nat) (nowStart nowEnd : Nat) (sendResult : Int)
deriving DecidableEq, Repr

/-- State transition of a single operation. -/
def stepOp (s : ManagerState) : Op → ManagerState
  | .startJoinOp now r => (startJoin s now r).state
  | .checkJoinOp nj => (checkJoinStatus s nj).state
  | .sendOp p port n0 n1 r => (sendCustomPayload s p port n0 n1 r).state

/-- Run a sequence of operations from a given state. -/
def runOps (s : ManagerState) (ops : List Op) : ManagerState :=
  ops.foldl stepOp s

/-- A freshly constructed manager after a successful `begin()` on a fresh
device (empty session storage): all counters zero. -/
def beginFresh : ManagerState := (beginManager initialState true true none).2

/-- The manager lifetime of the claims: construction, one successful
`begin()` with empty storage, then an arbitrary operation sequence. -/
def lifecycle (ops : List Op) : ManagerState := runOps beginFresh ops

/-! ### Shared helper lemmas and concrete states -/

/-- `u32` reduction is below the modulus. -/
lemma u32_lt (n : Nat) : u32 n < U32 := by
  simp only [u32, U32]
  omega

/-- Wraparound subtraction of a timestamp from itself is zero. -/
lemma usub32_self (n : Nat) : usub32 n (u32 n) = 0 := by
  simp only [usub32, u32, U32]
  omega

/-- A manager that is initialized and joined, has its timers at zero and has
transmitted nothing yet (the state right after a fresh start and a
successful join). -/
def readyState : ManagerState :=
  { initialState with isInitialized := true, isJoined := true }

/-- A manager that is initialized but not yet joined, with all counters and
timers at zero. -/
def joinReadyState : ManagerState :=
  { initialState with isInitialized := true }

/-- An initialized, unjoined manager whose join-attempt counter has reached
`MAX_JOIN_ATTEMPTS`. -/
def degradedState : ManagerState :=
  { initialState with isInitialized := true, joinAttempts := 10 }

/-- A `canTransmit`-true state forces the flags. -/
lemma canTransmit_flags (s : ManagerState) (now : Nat)
    (h : canTransmit s now = true) :
    s.isInitialized = true ∧ s.isJoined = true := by
  by_cases hi : s.isInitialized <;> by_cases hj : s.isJoined <;>
    simp [canTransmit, hi, hj] at h ⊢

/-! ### Claim C1 — duty-cycle gate characterization -/

/-- Claim C1: for an initialized and joined manager, `canTransmit()` is true
iff at least `TX_INTERVAL_MS` milliseconds have elapsed (wraparound-safe
unsigned subtraction of the monotonic clock) since the last successful
transmission; it is false immediately after a successful
`sendCustomPayload`, false at elapsed time `TX_INTERVAL_MS - 1`, true at
elapsed time `TX_INTERVAL_MS`, and always false when the manager is not
initialized or not joined. -/
theorem C1_canTransmit_gate :
    (∀ s : ManagerState, ∀ now : Nat,
      canTransmit s now = true
        ↔ (s.isInitialized = true ∧ s.isJoined = true
            ∧ TX_INTERVAL_MS ≤ usub32 now s.lastTxTime))
    ∧ (∀ s : ManagerState, ∀ payload : List Nat, ∀ port n0 n1 : Nat,
        (sendCustomPayload s payload port n0 n1 RADIOLIB_ERR_NONE).ret = true →
        canTransmit (sendCustomPayload s payload port n0 n1 RADIOLIB_ERR_NONE).state n1
          = false)
    ∧ (∀ s : ManagerState, ∀ t : Nat,
        usub32 t s.lastTxTime = TX_INTERVAL_MS - 1 → canTransmit s t = false)
    ∧ (∀ s : ManagerState, ∀ t : Nat, s.isInitialized = true → s.isJoined = true →
        usub32 t s.lastTxTime = TX_INTERVAL_MS → canTransmit s t = true)
    ∧ (∀ s : ManagerState, ∀ now : Nat,
        s.isInitialized = false ∨ s.isJoined = false → canTransmit s now = false) := by
  refine ⟨?_, ?_, ?_, ?_, ?_⟩
  · intro s now
    constructor
    · intro h
      obtain ⟨hi, hj⟩ := canTransmit_flags s now h
      refine ⟨hi, hj, ?_⟩
      by_cases hd : usub32 now s.lastTxTime < TX_INTERVAL_MS
      · simp [canTransmit, hi, hj, hd] at h
      · omega
    · rintro ⟨hi, hj, hd⟩
      simp [canTransmit, hi, hj]
      omega
  · intro s payload port n0 n1 h
    by_cases hg : canTransmit s n0
    · obtain ⟨hi, hj⟩ := canTransmit_flags s n0 hg
      simp only [sendCustomPayload, hg, Bool.not_true, Bool.false_eq_true,
        if_false, if_pos rfl]
      simp [canTransmit, hi, hj, usub32_self, TX_INTERVAL_MS]
    · simp [sendCustomPayload, hg] at h
  · intro s t h
    by_cases hi : s.isInitialized <;> by_cases hj : s.isJoined <;>
      simp [canTransmit, hi, hj, h, TX_INTERVAL_MS]
  · intro s t hi hj h
    simp [canTransmit, hi, hj, h, TX_INTERVAL_MS]
  · intro s now h
    rcases h with h | h <;> simp [canTransmit, h]

/-- Witness for C1 at concrete inputs: a successful transmit at clock 60000
(completed at clock 60050) from `readyState` leaves `canTransmit` false at
clock 60050, and the gate reopens exactly at elapsed `TX_INTERVAL_MS`. -/
theorem C1_canTransmit_gate_witness :
    canTransmit (sendCustomPayload readyState [1] 1 60000 60050 RADIOLIB_ERR_NONE).state
      60050 = false
    ∧ canTransmit readyState 59999 = false
    ∧ canTransmit readyState 60000 = true :=
  ⟨C1_canTransmit_gate.2.1 readyState [1] 1 60000 60050 (by decide),
   C1_canTransmit_gate.2.2.1 readyState 59999 (by decide),
   C1_canTransmit_gate.2.2.2.1 readyState 60000 (by decide) (by decide) (by decide)⟩

/-! ### Claim C2 — Degraded condition -/

/-- Claim C2 counterexample: with the join-attempt counter at
`MAX_JOIN_ATTEMPTS` (initialized, not joined, retry delay elapsed),
`startJoin` does not merely refuse and report — it invokes `ESP.restart()`
itself (`lorawan_manager.cpp`, line 142), so the restart decision is not
left to the caller as the claim states.  It does refuse (`ret = false`) and
does not forward to the radio. -/
theorem C2_degraded_counterexample :
    (startJoin degradedState 30000 RADIOLIB_ERR_NONE).restart = true
    ∧ (startJoin degradedState 30000 RADIOLIB_ERR_NONE).ret = false
    ∧ (startJoin degradedState 30000 RADIOLIB_ERR_NONE).forwarded = false := by
  decide

/-- Claim C2 (amended): once the join-attempt counter has reached
`MAX_JOIN_ATTEMPTS`, every subsequent `startJoin()` on an initialized,
unjoined manager refuses the attempt (returns failure), never forwards an
activation request to the radio capability, and leaves the state unchanged;
but instead of leaving the restart decision to the caller, the manager
itself invokes `ESP.restart()` whenever the call gets past the retry-delay
window. -/
theorem C2_degraded_refuses (s : ManagerState) (now : Nat) (r : Int)
    (hinit : s.isInitialized = true) (hnj : s.isJoined = false)
    (hmax : MAX_JOIN_ATTEMPTS ≤ s.joinAttempts) :
    (startJoin s now r).ret = false
    ∧ (startJoin s now r).forwarded = false
    ∧ (startJoin s now r).state = s
    ∧ (JOIN_RETRY_DELAY ≤ usub32 now s.lastJoinAttempt →
        (startJoin s now r).restart = true) := by
  simp only [startJoin, hinit, hnj, Bool.not_true, Bool.false_eq_true, if_false]
  split
  · exact ⟨rfl, rfl, rfl, by intro h; rename_i hlt; omega⟩
  · simp [hmax]

/-- Witness for C2 (amended) at the concrete degraded state. -/
theorem C2_degraded_refuses_witness :
    (startJoin degradedState 30000 RADIOLIB_ERR_NONE).ret = false
    ∧ (startJoin degradedState 30000 RADIOLIB_ERR_NONE).forwarded = false
    ∧ (startJoin degradedState 30000 RADIOLIB_ERR_NONE).state = degradedState
    ∧ (JOIN_RETRY_DELAY ≤ usub32 30000 degradedState.lastJoinAttempt →
        (startJoin degradedState 30000 RADIOLIB_ERR_NONE).restart = true) :=
  C2_degraded_refuses degradedState 30000 RADIOLIB_ERR_NONE
    (by decide) (by decide) (by decide)

/-! ### Claim C3 — join rate limiting -/

/-- Claim C3 counterexample: when the first forwarded activation request is
rejected by the capability, `lastJoinAttempt` is not recorded
(`lorawan_manager.cpp`, line 153 runs only on success), so a second
`startJoin` only 1 ms later — well inside the `JOIN_RETRY_DELAY` window —
forwards to the radio capability again, contradicting "only the first call
forwards". -/
theorem C3_rate_limit_counterexample :
    (startJoin joinReadyState 30000 (-1)).forwarded = true
    ∧ (startJoin (startJoin joinReadyState 30000 (-1)).state 30001 (-1)).forwarded = true
    ∧ usub32 30001 30000 < JOIN_RETRY_DELAY
    ∧ joinReadyState.isInitialized = true ∧ joinReadyState.isJoined = false
    ∧ joinReadyState.joinAttempts < MAX_JOIN_ATTEMPTS := by
  decide

/-- Claim C3 (amended): provided the first forwarded activation request is
accepted by the capability (so the attempt timestamp is recorded), every
later `startJoin` whose clock lies less than `JOIN_RETRY_DELAY` after that
first call returns the "too soon" failure, does not forward to the radio,
does not restart, and leaves the whole state — in particular `joinAttempts`
and `totalJoinAttempts` — unchanged.  When the capability rejects the first
request, the timestamp is not recorded and a later call inside the window
may forward again (see the counterexample). -/
theorem C3_rate_limited_after_success (s : ManagerState) (now now2 : Nat) (r2 : Int)
    (hinit : s.isInitialized = true) (hnj : s.isJoined = false)
    (hrate : JOIN_RETRY_DELAY ≤ usub32 now s.lastJoinAttempt)
    (hmax : s.joinAttempts < MAX_JOIN_ATTEMPTS)
    (hsoon : usub32 now2 (u32 now) < JOIN_RETRY_DELAY) :
    (startJoin s now RADIOLIB_ERR_NONE).forwarded = true
    ∧ (startJoin s now RADIOLIB_ERR_NONE).state.lastJoinAttempt = u32 now
    ∧ (startJoin (startJoin s now RADIOLIB_ERR_NONE).state now2 r2).ret = false
    ∧ (startJoin (startJoin s now RADIOLIB_ERR_NONE).state now2 r2).forwarded = false
    ∧ (startJoin (startJoin s now RADIOLIB_ERR_NONE).state now2 r2).restart = false
    ∧ (startJoin (startJoin s now RADIOLIB_ERR_NONE).state now2 r2).state
        = (startJoin s now RADIOLIB_ERR_NONE).state
    ∧ (startJoin (startJoin s now RADIOLIB_ERR_NONE).state now2 r2).state.joinAttempts
        = (startJoin s now RADIOLIB_ERR_NONE).state.joinAttempts
    ∧ (startJoin (startJoin s now RADIOLIB_ERR_NONE).state now2 r2).state.totalJoinAttempts
        = (startJoin s now RADIOLIB_ERR_NONE).state.totalJoinAttempts := by
  have h1 : startJoin s now RADIOLIB_ERR_NONE
      = { ret := true, forwarded := true, restart := false,
          state :=
            { s with
              lastJoinAttempt := u32 now
              joinAttempts := u8 (s.joinAttempts + 1)
              totalJoinAttempts := u32 (s.totalJoinAttempts + 1) } } := by
    simp only [startJoin, hinit, hnj, Bool.not_true, Bool.false_eq_true, if_false]
    rw [if_neg (by omega), if_neg (by omega)]
    simp
  rw [h1]
  simp [startJoin, hinit, hnj, hsoon]

/-- Witness for C3 (amended): first call at clock 30000 accepted, second
call at clock 30001. -/
theorem C3_rate_limited_after_success_witness :
    (startJoin joinReadyState 30000 RADIOLIB_ERR_NONE).forwarded = true
    ∧ (startJoin joinReadyState 30000 RADIOLIB_ERR_NONE).state.lastJoinAttempt = u32 30000
    ∧ (startJoin (startJoin joinReadyState 30000 RADIOLIB_ERR_NONE).state 30001 RADIOLIB_ERR_NONE).ret = false
    ∧ (startJoin (startJoin joinReadyState 30000 RADIOLIB_ERR_NONE).state 30001 RADIOLIB_ERR_NONE).forwarded = false
    ∧ (startJoin (startJoin joinReadyState 30000 RADIOLIB_ERR_NONE).state 30001 RADIOLIB_ERR_NONE).restart = false
    ∧ (startJoin (startJoin joinReadyState 30000 RADIOLIB_ERR_NONE).state 30001 RADIOLIB_ERR_NONE).state
        = (startJoin joinReadyState 30000 RADIOLIB_ERR_NONE).state
    ∧ (startJoin (startJoin joinReadyState 30000 RADIOLIB_ERR_NONE).state 30001 RADIOLIB_ERR_NONE).state.joinAttempts
        = (startJoin joinReadyState 30000 RADIOLIB_ERR_NONE).state.joinAttempts
    ∧ (startJoin (startJoin joinReadyState 30000 RADIOLIB_ERR_NONE).state 30001 RADIOLIB_ERR_NONE).state.totalJoinAttempts
        = (startJoin joinReadyState 30000 RADIOLIB_ERR_NONE).state.totalJoinAttempts :=
  C3_rate_limited_after_success joinReadyState 30000 30001 RADIOLIB_ERR_NONE
    (by decide) (by decide) (by decide) (by decide) (by decide)

/-! ### Claim C4 — session persistence points -/

/-- Claim C4 counterexample: a failed transmit attempt (gate open, capability
reports failure) is a transmit attempt — `totalTransmissions` and
`failedTransmissions` advance — yet `saveSession` is not invoked
(`lorawan_manager.cpp` calls it only on the success path, line 248), so the
persisted record is not written after every transmit attempt and does not
reflect the last attempt. -/
theorem C4_save_on_failure_counterexample :
    (sendCustomPayload readyState [2] 1 60000 60001 (-1)).saved = none
    ∧ (sendCustomPayload readyState [2] 1 60000 60001 (-1)).state.totalTransmissions
        = readyState.totalTransmissions + 1
    ∧ (sendCustomPayload readyState [2] 1 60000 60001 (-1)).state.failedTransmissions
        = readyState.failedTransmissions + 1 := by
  decide

/-- Claim C4 (amended): the persisted session record in the `"geofence"`
namespace (`joined`, `tx_counter`, `total_tx`, `success_tx`, `failed_tx`)
is written after every successful activation (`checkJoinStatus` observing
the join) and after every **successful** transmit, with contents equal to
the updated in-memory state; on a failed transmit attempt nothing is
persisted, so the stored counters reflect the last *successful*
state-changing event, not the last attempt. -/
theorem C4_session_persistence :
    STORAGE_NAMESPACE = "geofence"
    ∧ (∀ s : ManagerState, s.isInitialized = true → s.isJoined = false →
        (checkJoinStatus s true).saved
          = some (sessionSnapshot (checkJoinStatus s true).state))
    ∧ (∀ s : ManagerState, ∀ payload : List Nat, ∀ port n0 n1 : Nat, ∀ r : Int,
        (sendCustomPayload s payload port n0 n1 r).ret = true →
        (sendCustomPayload s payload port n0 n1 r).saved
          = some (sessionSnapshot (sendCustomPayload s payload port n0 n1 r).state))
    ∧ (∀ s : ManagerState, ∀ payload : List Nat, ∀ port n0 n1 : Nat, ∀ r : Int,
        canTransmit s n0 = true → r ≠ RADIOLIB_ERR_NONE →
        (sendCustomPayload s payload port n0 n1 r).saved = none) := by
  refine ⟨rfl, ?_, ?_, ?_⟩
  · intro s hi hj
    simp [checkJoinStatus, hi, hj]
  · intro s payload port n0 n1 r h
    by_cases hg : canTransmit s n0
    · by_cases hr : r = RADIOLIB_ERR_NONE
      · simp [sendCustomPayload, hg, hr]
      · simp [sendCustomPayload, hg, hr] at h
    · simp [sendCustomPayload, hg] at h
  · intro s payload port n0 n1 r hg hr
    simp [sendCustomPayload, hg, hr]

/-- Witness for C4 (amended) at concrete inputs: a join observed from
`joinReadyState`, a successful transmit and a failed transmit from
`readyState`. -/
theorem C4_session_persistence_witness :
    (checkJoinStatus joinReadyState true).saved
        = some (sessionSnapshot (checkJoinStatus joinReadyState true).state)
    ∧ (sendCustomPayload readyState [2] 1 60000 60001 RADIOLIB_ERR_NONE).saved
        = some (sessionSnapshot
            (sendCustomPayload readyState [2] 1 60000 60001 RADIOLIB_ERR_NONE).state)
    ∧ (sendCustomPayload readyState [2] 1 60000 60001 (-1)).saved = none :=
  ⟨C4_session_persistence.2.1 joinReadyState (by decide) (by decide),
   C4_session_persistence.2.2.1 readyState [2] 1 60000 60001 RADIOLIB_ERR_NONE (by decide),
   C4_session_persistence.2.2.2 readyState [2] 1 60000 60001 (-1) (by decide) (by decide)⟩

/-! ### Claim C5 — frame effect of a failed transmit -/

/-- Claim C5: when the send capability reports failure inside
`sendCustomPayload` (with the duty-cycle gate open), the call returns
failure, `totalTransmissions` is incremented (the attempt was counted
before the send) and `failedTransmissions` is incremented, while
`lastTxTime`, `txCounter`, `successfulTransmissions`, the `joined` flag and
every other field are left unchanged — so the duty-cycle gate keeps
counting from the last successful transmission; nothing is persisted. -/
theorem C5_failed_send_frame (s : ManagerState) (payload : List Nat)
    (port n0 n1 : Nat) (r : Int)
    (hgate : canTransmit s n0 = true) (hfail : r ≠ RADIOLIB_ERR_NONE) :
    (sendCustomPayload s payload port n0 n1 r).ret = false
    ∧ (sendCustomPayload s payload port n0 n1 r).state.lastTxTime = s.lastTxTime
    ∧ (sendCustomPayload s payload port n0 n1 r).state.txCounter = s.txCounter
    ∧ (sendCustomPayload s payload port n0 n1 r).state.successfulTransmissions
        = s.successfulTransmissions
    ∧ (sendCustomPayload s payload port n0 n1 r).state.isJoined = s.isJoined
    ∧ (sendCustomPayload s payload port n0 n1 r).state.isInitialized = s.isInitialized
    ∧ (sendCustomPayload s payload port n0 n1 r).state.lastJoinAttempt = s.lastJoinAttempt
    ∧ (sendCustomPayload s payload port n0 n1 r).state.joinAttempts = s.joinAttempts
    ∧ (sendCustomPayload s payload port n0 n1 r).state.totalJoinAttempts
        = s.totalJoinAttempts
    ∧ (sendCustomPayload s payload port n0 n1 r).state.failedTransmissions
        = u32 (s.failedTransmissions + 1)
    ∧ (sendCustomPayload s payload port n0 n1 r).state.totalTransmissions
        = u32 (s.totalTransmissions + 1)
    ∧ (sendCustomPayload s payload port n0 n1 r).saved = none := by
  simp [sendCustomPayload, hgate, hfail]

/-- Witness for C5 at concrete inputs: a failed send from `readyState` at
clock 60000. -/
theorem C5_failed_send_frame_witness :
    (sendCustomPayload readyState [2] 1 60000 60001 (-1)).ret = false
    ∧ (sendCustomPayload readyState [2] 1 60000 60001 (-1)).state.lastTxTime
        = readyState.lastTxTime
    ∧ (sendCustomPayload readyState [2] 1 60000 60001 (-1)).state.txCounter
        = readyState.txCounter
    ∧ (sendCustomPayload readyState [2] 1 60000 60001 (-1)).state.successfulTransmissions
        = readyState.successfulTransmissions
    ∧ (sendCustomPayload readyState [2] 1 60000 60001 (-1)).state.isJoined
        = readyState.isJoined
    ∧ (sendCustomPayload readyState [2] 1 60000 60001 (-1)).state.isInitialized
        = readyState.isInitialized
    ∧ (sendCustomPayload readyState [2] 1 60000 60001 (-1)).state.lastJoinAttempt
        = readyState.lastJoinAttempt
    ∧ (sendCustomPayload readyState [2] 1 60000 60001 (-1)).state.joinAttempts
        = readyState.joinAttempts
    ∧ (sendCustomPayload readyState [2] 1 60000 60001 (-1)).state.totalJoinAttempts
        = readyState.totalJoinAttempts
    ∧ (sendCustomPayload readyState [2] 1 60000 60001 (-1)).state.failedTransmissions
        = u32 (readyState.failedTransmissions + 1)
    ∧ (sendCustomPayload readyState [2] 1 60000 60001 (-1)).state.totalTransmissions
        = u32 (readyState.totalTransmissions + 1)
    ∧ (sendCustomPayload readyState [2] 1 60000 60001 (-1)).saved = none :=
  C5_failed_send_frame readyState [2] 1 60000 60001 (-1) (by decide) (by decide)

/-! ### Claim C9 — no silent truncation of over-length payloads -/

/-- Claim C9: `sendCustomPayload` never hands the send capability a
shortened payload — whatever it forwards to `sendReceive` is exactly the
caller's payload and port — and when the capability rejects the frame as
too long (`RADIOLIB_ERR_PACKET_TOO_LONG`, the classified failure RadioLib
returns for a payload above the maximum supported frame), the call fails
immediately, returning `false` from that same invocation. -/
theorem C9_no_truncation :
    (∀ s : ManagerState, ∀ payload : List Nat, ∀ port n0 n1 : Nat, ∀ r : Int,
        (sendCustomPayload s payload port n0 n1 r).sent = none
        ∨ (sendCustomPayload s payload port n0 n1 r).sent = some (payload, port))
    ∧ (∀ s : ManagerState, ∀ payload : List Nat, ∀ port n0 n1 : Nat,
        canTransmit s n0 = true →
        (sendCustomPayload s payload port n0 n1 RADIOLIB_ERR_PACKET_TOO_LONG).ret = false
        ∧ (sendCustomPayload s payload port n0 n1 RADIOLIB_ERR_PACKET_TOO_LONG).sent
            = some (payload, port)) := by
  constructor
  · intro s payload port n0 n1 r
    by_cases hg : canTransmit s n0
    · by_cases hr : r = RADIOLIB_ERR_NONE <;> simp [sendCustomPayload, hg, hr]
    · simp [sendCustomPayload, hg]
  · intro s payload port n0 n1 hg
    simp [sendCustomPayload, hg, RADIOLIB_ERR_PACKET_TOO_LONG, RADIOLIB_ERR_NONE]

/-- Witness for C9 at a concrete over-length payload (300 bytes, above any
LoRaWAN frame limit): the whole payload is forwarded unshortened and the
call fails. -/
theorem C9_no_truncation_witness :
    (sendCustomPayload readyState (List.replicate 300 0) 1 60000 60001
        RADIOLIB_ERR_PACKET_TOO_LONG).ret = false
    ∧ (sendCustomPayload readyState (List.replicate 300 0) 1 60000 60001
        RADIOLIB_ERR_PACKET_TOO_LONG).sent = some (List.replicate 300 0, 1) :=
  C9_no_truncation.2 readyState (List.replicate 300 0) 1 60000 60001 (by decide)

/-! ### Claim C7 — GPS payload encoding -/

/-- The `uint32` image of an `int32` is below `2^32`. -/
lemma toUInt32_lt (x : Int) : toUInt32 x < 4294967296 := by
  have h : x % 4294967296 < 4294967296 := Int.emod_lt_of_pos x (by norm_num)
  have h0 : 0 ≤ x % 4294967296 := Int.emod_nonneg x (by norm_num)
  simp only [toUInt32]
  omega

/-- The `uint16` image of an `int16` is below `2^16`. -/
lemma toUInt16_lt (x : Int) : toUInt16 x < 65536 := by
  have h : x % 65536 < 65536 := Int.emod_lt_of_pos x (by norm_num)
  have h0 : 0 ≤ x % 65536 := Int.emod_nonneg x (by norm_num)
  simp only [toUInt16]
  omega

/-- Claim C7: `encodeGPSData` always returns 13 bytes; byte 0 is the
`0x01` message-type tag, bytes 1–4 recompose big-endian to the
two's-complement `uint32` image of the latitude, bytes 5–8 to that of the
longitude, bytes 9–10 to the `uint16` image of the altitude, byte 11 is the
satellite count and byte 12 is the hdop; and on the concrete input
`lat = -33448900`, `lon = -70669300`, `altitude = 520`, `satellites = 8`,
`hdop = 12` it yields exactly the 13 bytes whose first four payload bytes
`[254, 1, 156, 60]` are the big-endian two's-complement of `-33448900`
(`2^32 - 33448900 = 4261518396`).  As a Lean function it is total and
deterministic by construction. -/
theorem C7_encodeGPSData_layout :
    (∀ gps : GPSData, (encodeGPSData gps).length = 13)
    ∧ (∀ gps : GPSData, (encodeGPSData gps).getD 0 0 = MSG_TYPE_GPS_DATA)
    ∧ (∀ gps : GPSData,
        (encodeGPSData gps).getD 1 0 * 16777216 + (encodeGPSData gps).getD 2 0 * 65536
          + (encodeGPSData gps).getD 3 0 * 256 + (encodeGPSData gps).getD 4 0
          = toUInt32 gps.latitude)
    ∧ (∀ gps : GPSData,
        (encodeGPSData gps).getD 5 0 * 16777216 + (encodeGPSData gps).getD 6 0 * 65536
          + (encodeGPSData gps).getD 7 0 * 256 + (encodeGPSData gps).getD 8 0
          = toUInt32 gps.longitude)
    ∧ (∀ gps : GPSData,
        (encodeGPSData gps).getD 9 0 * 256 + (encodeGPSData gps).getD 10 0
          = toUInt16 gps.altitude)
    ∧ (∀ gps : GPSData, (encodeGPSData gps).getD 11 0 = u8 gps.satellites)
    ∧ (∀ gps : GPSData, (encodeGPSData gps).getD 12 0 = u8 gps.hdop)
    ∧ encodeGPSData ⟨-33448900, -70669300, 520, 8, 12⟩
        = [1, 254, 1, 156, 60, 251, 201, 172, 12, 2, 8, 8, 12]
    ∧ 254 * 16777216 + 1 * 65536 + 156 * 256 + 60 = toUInt32 (-33448900)
    ∧ toUInt32 (-33448900) = 4294967296 - 33448900 := by
  refine ⟨fun gps => rfl, fun gps => rfl, ?_, ?_, ?_, fun gps => rfl, fun gps => rfl,
    by decide, by decide, by decide⟩
  · intro gps
    have h := toUInt32_lt gps.latitude
    simp only [encodeGPSData, List.getD_cons_succ, List.getD_cons_zero]
    omega
  · intro gps
    have h := toUInt32_lt gps.longitude
    simp only [encodeGPSData, List.getD_cons_succ, List.getD_cons_zero]
    omega
  · intro gps
    have h := toUInt16_lt gps.altitude
    simp only [encodeGPSData, List.getD_cons_succ, List.getD_cons_zero]
    omega

/-! ### Claim C10 — hex credential parsing -/

/-- Claim C10 is wrong about the code's output values, and the code — not
the claim — is at fault: the validation (`isxdigit`) accepts lower-case hex
digits, but the conversion applies the upper-case offset `c - 'A' + 10` to
every character `≥ 'A'`, so a lower-case digit is converted with a spurious
excess of 32.  Evaluation at the failing input `"1a"` (`maxBytes = 1`,
codes `[49, 97]`): both characters pass `isxdigit`, the call succeeds, and
the output byte is `0x3A = 58`, whereas 16 times the value of hex digit
`'1'` plus the value of hex digit `'a'` is `16 * 1 + 10 = 26 = 0x1A`. -/
theorem C10_hexStringToBytes_lowercase_bug :
    hexStringToBytes [49, 97] 1 = some [58]
    ∧ isHexDigitCode 49 = true
    ∧ isHexDigitCode 97 = true
    ∧ 16 * 1 + 10 = 26
    ∧ (58 : Nat) ≠ 26 := by
  decide

/-! ### Claim C8 — geofence hysteresis (modelled from the spec) -/

/-- Claim C8 counterexample (spec-modelled engine): for the default zone
(`R = 100` m, `M = 2` m) the claimed distance sequence
`R+M+1, R-1, R+M-1, R-M-1` = `103, 99, 101, 97` commits **no** event at the
second sample (`R-1 = 99` lies inside the hysteresis band, above
`R - M = 98`), none at the third, and a single ENTER — not an EXIT — at the
fourth (`R-M-1 = 97` is below `R - M`, deep inside the zone, and can never
commit an EXIT).  So the claimed pattern "ENTER at the second sample, EXIT
at the fourth" is false. -/
theorem C8_hysteresis_counterexample :
    hystEvents DEFAULT_GEOFENCE_RADIUS GEOFENCE_HYSTERESIS false
        [DEFAULT_GEOFENCE_RADIUS + GEOFENCE_HYSTERESIS + 1,
         DEFAULT_GEOFENCE_RADIUS - 1,
         DEFAULT_GEOFENCE_RADIUS + GEOFENCE_HYSTERESIS - 1,
         DEFAULT_GEOFENCE_RADIUS - GEOFENCE_HYSTERESIS - 1]
      = [none, none, none, some EVENT_ENTER]
    ∧ ([none, none, none, some EVENT_ENTER] : List (Option Nat))
        ≠ [none, some EVENT_ENTER, none, some EVENT_EXIT] := by
  constructor
  · norm_num [hystEvents, hystStep, DEFAULT_GEOFENCE_RADIUS, GEOFENCE_HYSTERESIS,
      EVENT_ENTER, EVENT_EXIT]
  · decide

/-- Claim C8 (amended, spec-modelled engine): for a zone of radius `R` with
hysteresis margin `M ≥ 0`, the per-sample evaluation commits an
outside→inside flip (ENTER) only when the distance is at most `R - M`,
commits an inside→outside flip (EXIT) only when the distance exceeds
`R + M`, and retains the last committed state whenever no event is
committed; and for the distance sequence `R+M+1, R-M-1, R+M-1, R+M+1` it
commits exactly one ENTER at the second sample, nothing at the third, and
exactly one EXIT at the fourth. -/
theorem C8_hysteresis_band (R M : Rat) (hM : 0 ≤ M) :
    (∀ inside : Bool, ∀ d : Rat,
        (hystStep R M inside d).2 = some EVENT_ENTER → inside = false ∧ d ≤ R - M)
    ∧ (∀ inside : Bool, ∀ d : Rat,
        (hystStep R M inside d).2 = some EVENT_EXIT → inside = true ∧ R + M < d)
    ∧ (∀ inside : Bool, ∀ d : Rat,
        (hystStep R M inside d).2 = none → (hystStep R M inside d).1 = inside)
    ∧ hystEvents R M false [R + M + 1, R - M - 1, R + M - 1, R + M + 1]
        = [none, some EVENT_ENTER, none, some EVENT_EXIT] := by
  refine ⟨?_, ?_, ?_, ?_⟩
  · intro inside d h
    cases inside <;> simp only [hystStep, if_true, if_false, Bool.false_eq_true] at h ⊢ <;>
      split_ifs at h with hc <;> simp_all [EVENT_ENTER, EVENT_EXIT]
  · intro inside d h
    cases inside <;> simp only [hystStep, if_true, if_false, Bool.false_eq_true] at h ⊢ <;>
      split_ifs at h with hc <;> simp_all [EVENT_ENTER, EVENT_EXIT]
  · intro inside d h
    cases inside <;> simp only [hystStep, if_true, if_false, Bool.false_eq_true] at h ⊢ <;>
      split_ifs at h ⊢ with hc <;> simp_all
  · have h1 : ¬ (R + M + 1 ≤ R - M) := by intro h; linarith
    have h2 : R - M - 1 ≤ R - M := by linarith
    have h3 : ¬ (R + M < R + M - 1) := by intro h; linarith
    have h4 : R + M < R + M + 1 := by linarith
    simp [hystEvents, hystStep, h1, h2, h3, h4]

/-- Witness for C8 (amended) at the configured defaults `R = 100`,
`M = 2`. -/
theorem C8_hysteresis_band_witness :
    hystEvents 100 2 false [100 + 2 + 1, 100 - 2 - 1, 100 + 2 - 1, 100 + 2 + 1]
      = [none, some EVENT_ENTER, none, some EVENT_EXIT] :=
  (C8_hysteresis_band 100 2 (by norm_num)).2.2.2

/-! ### Claim C6 — statistics counters -/

/-- The transmit operation used in the wraparound counterexample: gate open
(`lastTxTime` stays 0, clock at 60000), capability reports failure. -/
def failSendOp : Op := .sendOp [0] 1 60000 60001 (-1)

/-- Observing a completed join right after a fresh `begin()` yields
`readyState`. -/
lemma lifecycle_join : stepOp beginFresh (Op.checkJoinOp true) = readyState := by
  decide

/-- Running an appended operation list runs the pieces in order. -/
lemma runOps_append (s : ManagerState) (l1 l2 : List Op) :
    runOps s (l1 ++ l2) = runOps (runOps s l1) l2 := by
  simp [runOps, List.foldl_append]

/-- The duty-cycle gate is open at clock 60000 for a state that never
transmitted successfully. -/
lemma canTransmit_60000 (s : ManagerState) (hi : s.isInitialized = true)
    (hj : s.isJoined = true) (hl : s.lastTxTime = 0) :
    canTransmit s 60000 = true := by
  simp [canTransmit, hi, hj, hl, usub32, u32, U32, TX_INTERVAL_MS]

/-- Field-level effect of one failed send through an open gate. -/
lemma sendFail_projections (s : ManagerState) (hct : canTransmit s 60000 = true) :
    (stepOp s failSendOp).totalTransmissions = u32 (s.totalTransmissions + 1)
    ∧ (stepOp s failSendOp).failedTransmissions = u32 (s.failedTransmissions + 1)
    ∧ (stepOp s failSendOp).isJoined = s.isJoined
    ∧ (stepOp s failSendOp).isInitialized = s.isInitialized
    ∧ (stepOp s failSendOp).lastTxTime = s.lastTxTime := by
  simp [stepOp, failSendOp, sendCustomPayload, hct, RADIOLIB_ERR_NONE]

/-- `u32` increment commutes with prior reduction. -/
lemma u32_succ (n : Nat) : u32 (u32 n + 1) = u32 (n + 1) := by
  simp only [u32, U32]
  omega

/-- Closed form for the relevant fields after `n` consecutive failed sends
from `readyState`. -/
lemma failSends_fields (n : Nat) :
    (runOps readyState (List.replicate n failSendOp)).isInitialized = true
    ∧ (runOps readyState (List.replicate n failSendOp)).isJoined = true
    ∧ (runOps readyState (List.replicate n failSendOp)).lastTxTime = 0
    ∧ (runOps readyState (List.replicate n failSendOp)).totalTransmissions = u32 n := by
  induction n with
  | zero => exact ⟨rfl, rfl, rfl, rfl⟩
  | succ n ih =>
    obtain ⟨hi, hj, hl, ht⟩ := ih
    have hstep : runOps readyState (List.replicate (n + 1) failSendOp)
        = stepOp (runOps readyState (List.replicate n failSendOp)) failSendOp := by
      rw [List.replicate_succ', runOps_append]
      rfl
    have hct := canTransmit_60000 _ hi hj hl
    obtain ⟨p1, p2, p3, p4, p5⟩ := sendFail_projections _ hct
    rw [hstep]
    exact ⟨by rw [p4, hi], by rw [p3, hj], by rw [p5, hl], by rw [p1, ht, u32_succ]⟩

/-- The final statistics of joining once and then performing `n` failed
transmit attempts, starting from the freshly constructed manager. -/
lemma lifecycle_failSends_total (n : Nat) :
    (lifecycle (Op.checkJoinOp true :: List.replicate n failSendOp)).totalTransmissions
      = u32 n := by
  have h : lifecycle (Op.checkJoinOp true :: List.replicate n failSendOp)
      = runOps readyState (List.replicate n failSendOp) := by
    show runOps (stepOp beginFresh (Op.checkJoinOp true))
        (List.replicate n failSendOp) = _
    rw [lifecycle_join]
  rw [h, (failSends_fields n).2.2.2]

/-- Claim C6 counterexample: the statistics counters are `uint32_t` and wrap.
In the lifetime that joins once and then performs `2^32` transmit attempts
(each a failed send), the trace with `2^32` sends extends the trace with
`2^32 - 1` sends by exactly one operation, yet its final
`totalTransmissions` (`0`) is strictly smaller than the shorter trace's
(`2^32 - 1`): the counters are not monotonically non-decreasing across
every operation of the manager's lifetime. -/
theorem C6_monotonicity_counterexample :
    (Op.checkJoinOp true :: List.replicate 4294967296 failSendOp)
        = (Op.checkJoinOp true :: List.replicate 4294967295 failSendOp) ++ [failSendOp]
    ∧ (lifecycle (Op.checkJoinOp true
          :: List.replicate 4294967296 failSendOp)).totalTransmissions
        < (lifecycle (Op.checkJoinOp true
            :: List.replicate 4294967295 failSendOp)).totalTransmissions := by
  constructor
  · simp only [List.cons_append]
    rw [← List.replicate_succ']
  · rw [lifecycle_failSends_total, lifecycle_failSends_total]
    norm_num [u32, U32]

/-- The three statistics counters of a reachable manager state: below the
`uint32` modulus and mutually consistent in wrapping arithmetic. -/
def StatsInv (s : ManagerState) : Prop :=
  s.totalTransmissions
      = (s.successfulTransmissions + s.failedTransmissions) % U32
    ∧ s.successfulTransmissions < U32 ∧ s.failedTransmissions < U32

/-- Every operation preserves the statistics invariant. -/
lemma statsInv_step (s : ManagerState) (op : Op) (h : StatsInv s) :
    StatsInv (stepOp s op) := by
  obtain ⟨h1, h2, h3⟩ := h
  cases op with
  | startJoinOp now r =>
    simp only [stepOp, startJoin]
    split_ifs <;> exact ⟨h1, h2, h3⟩
  | checkJoinOp nj =>
    simp only [stepOp, checkJoinStatus]
    split_ifs <;> exact ⟨h1, h2, h3⟩
  | sendOp p port n0 n1 r =>
    simp only [stepOp, sendCustomPayload]
    split_ifs <;> refine ⟨?_, ?_, ?_⟩ <;>
      simp_all [u32, U32] <;> omega

/-- The statistics invariant holds along any operation sequence. -/
lemma statsInv_runOps (s : ManagerState) (ops : List Op) (h : StatsInv s) :
    StatsInv (runOps s ops) := by
  induction ops generalizing s with
  | nil => exact h
  | cons op l ih => exact ih _ (statsInv_step s op h)

/-- The statistics invariant holds at the start of the lifetime. -/
lemma statsInv_beginFresh : StatsInv beginFresh := by
  refine ⟨by decide, by decide, by decide⟩

/-- The statistics invariant holds at every point of the lifetime. -/
lemma statsInv_lifecycle (ops : List Op) : StatsInv (lifecycle ops) :=
  statsInv_runOps _ _ statsInv_beginFresh

/-- From an invariant state, one operation never decreases a statistics
counter unless that counter wraps from `2^32 - 1`. -/
lemma step_counters_mono (s : ManagerState) (op : Op) (h : StatsInv s) :
    (s.totalTransmissions ≤ (stepOp s op).totalTransmissions
      ∨ s.totalTransmissions = U32 - 1)
    ∧ (s.successfulTransmissions ≤ (stepOp s op).successfulTransmissions
      ∨ s.successfulTransmissions = U32 - 1)
    ∧ (s.failedTransmissions ≤ (stepOp s op).failedTransmissions
      ∨ s.failedTransmissions = U32 - 1) := by
  obtain ⟨h1, h2, h3⟩ := h
  have ht : s.totalTransmissions < U32 := h1 ▸ Nat.mod_lt _ (by norm_num [U32])
  cases op with
  | startJoinOp now r =>
    simp only [stepOp, startJoin]
    split_ifs <;> simp
  | checkJoinOp nj =>
    simp only [stepOp, checkJoinStatus]
    split_ifs <;> simp
  | sendOp p port n0 n1 r =>
    simp only [stepOp, sendCustomPayload]
    split_ifs <;> refine ⟨?_, ?_, ?_⟩ <;>
      simp_all [u32, U32] <;> omega

/-- From an invariant state, the counters satisfy the wrapping equation
after any `sendCustomPayload` call. -/
lemma send_counters_equation (s : ManagerState) (p : List Nat)
    (port n0 n1 : Nat) (r : Int) (h : StatsInv s) :
    (sendCustomPayload s p port n0 n1 r).state.totalTransmissions
      = ((sendCustomPayload s p port n0 n1 r).state.successfulTransmissions
          + (sendCustomPayload s p port n0 n1 r).state.failedTransmissions) % U32 :=
  (statsInv_step s (.sendOp p port n0 n1 r) h).1

/-- Claim C6 (amended): starting from a freshly constructed manager whose
`begin()` found empty storage (all statistics counters zero), along every
operation sequence of the lifetime each of `totalTransmissions`,
`successfulTransmissions` and `failedTransmissions` either does not
decrease at the next operation or wraps from `2^32 - 1` (the counters are
`uint32_t`, so lifetime-long monotonicity holds exactly up to the first
wrap after `2^32` attempts — see the counterexample), and after every
`sendCustomPayload` call the equation `totalTransmissions ==
successfulTransmissions + failedTransmissions` holds in 32-bit wrapping
arithmetic, which is exactly how the C++ `uint32_t` expression evaluates
it. -/
theorem C6_statistics_counters (ops : List Op) :
    (beginFresh.totalTransmissions = 0 ∧ beginFresh.successfulTransmissions = 0
      ∧ beginFresh.failedTransmissions = 0)
    ∧ (∀ op : Op,
        ((lifecycle ops).totalTransmissions
            ≤ (stepOp (lifecycle ops) op).totalTransmissions
          ∨ (lifecycle ops).totalTransmissions = U32 - 1)
        ∧ ((lifecycle ops).successfulTransmissions
            ≤ (stepOp (lifecycle ops) op).successfulTransmissions
          ∨ (lifecycle ops).successfulTransmissions = U32 - 1)
        ∧ ((lifecycle ops).failedTransmissions
            ≤ (stepOp (lifecycle ops) op).failedTransmissions
          ∨ (lifecycle ops).failedTransmissions = U32 - 1))
    ∧ (∀ payload : List Nat, ∀ port n0 n1 : Nat, ∀ r : Int,
        (sendCustomPayload (lifecycle ops) payload port n0 n1 r).state.totalTransmissions
          = ((sendCustomPayload (lifecycle ops) payload port n0 n1
                r).state.successfulTransmissions
              + (sendCustomPayload (lifecycle ops) payload port n0 n1
                  r).state.failedTransmissions) % U32) :=
  ⟨⟨rfl, rfl, rfl⟩,
   fun op => step_counters_mono (lifecycle ops) op (statsInv_lifecycle ops),
   fun payload port n0 n1 r =>
     send_counters_equation (lifecycle ops) payload port n0 n1 r
       (statsInv_lifecycle ops)⟩

end Firmware
